import Mathlib

/-!
Shallow embedding of the bcpyaz module (src/bcpyaz/binary_callers.py).

Python strings are modelled as Lean String values; the string operations the
module relies on (split, rstrip, strip, replace, readline, decode) are
re-implemented over the underlying character lists so their behaviour matches
the CPython semantics at the call sites.  External effects (subprocess.run,
blob upload/delete, SAS generation, the wall clock) are passed in explicitly
as parameters, and the blob-staged loader additionally records the sequence of
external effects it performs so that ordering claims can be stated.
-/

/-- Python exception values surfaced by the embedded code. -/
inductive PyErr where
  | valueError (msg : String)
  | keyError (key : String)
  | indexError (msg : String)
  | unicodeDecodeError
  | emptyDataError
  | exception (msg : String)
deriving DecidableEq, Repr

/-- Message text carried by an exception value (for containment claims). -/
def PyErr.msg : PyErr → String
  | .valueError m => m
  | .keyError k => k
  | .indexError m => m
  | .unicodeDecodeError => "ascii codec can not decode byte"
  | .emptyDataError => "No columns to parse from file"
  | .exception m => m

/-- Result of subprocess.run: exit code plus captured stdout and stderr. -/
structure ProcResult where
  returncode : Int
  stdout : String
  stderr : String
deriving DecidableEq, Repr

/-- Python str.rstrip(";"): drop every trailing semicolon. -/
def pyRstripSemi (s : String) : String :=
  String.mk ((s.data.reverse.dropWhile (fun c => c = ';')).reverse)

/-- Python str.split(sep) for a one-character separator (keeps empty parts). -/
def pySplitChar (c : Char) (s : String) : List String :=
  (s.data.splitOn c).map String.mk

/-- Python str.split("=", 1): split at the first equals sign only. -/
def pySplitEq1 (s : String) : List String :=
  match s.data.splitOn '=' with
  | [] => [String.mk []]
  | [x] => [String.mk x]
  | x :: rest => [String.mk x, String.mk (List.intercalate ['='] rest)]

/-- Python os.path.basename for POSIX paths: the part after the last slash. -/
def pyBasename (p : String) : String :=
  String.mk ((p.data.splitOn '/').getLastD [])

/-- Python str.strip(): drop leading and trailing whitespace. -/
def pyStrip (s : String) : String :=
  String.mk (((s.data.dropWhile Char.isWhitespace).reverse.dropWhile
    Char.isWhitespace).reverse)

/-- Python io.StringIO.readline(): first line, including its newline. -/
def pyReadline (s : String) : String :=
  String.mk (s.data.takeWhile (fun c => c ≠ '\n') ++
    (if s.data.contains '\n' then ['\n'] else []))

/-- Python bytes.decode(ascii): fails on any non-ASCII character. -/
def pyDecodeAscii (s : String) : Except PyErr String :=
  if s.data.all (fun c => c.toNat < 128) then .ok s else .error .unicodeDecodeError

/-- One step of Python str.replace for a non-empty pattern. -/
def pyReplaceAux (old new : List Char) : List Char → List Char
  | [] => []
  | c :: rest =>
    if old.isPrefixOf (c :: rest) then
      new ++ pyReplaceAux old new (List.drop (old.length - 1) rest)
    else
      c :: pyReplaceAux old new rest
termination_by l => l.length
decreasing_by
  · simp only [List.length_drop, List.length_cons]
    omega
  · simp [List.length_cons]

/-- Python str.replace(old, new); an empty pattern interleaves everywhere. -/
def pyReplace (s old new : String) : String :=
  if old.data = [] then
    String.mk (new.data ++ (s.data.map (fun c => c :: new.data)).flatten)
  else
    String.mk (pyReplaceAux old.data new.data s.data)

/-- Whether pat occurs as a contiguous segment of l. -/
def containsSeg (pat : List Char) : List Char → Bool
  | [] => decide (pat = [])
  | c :: rest => pat.isPrefixOf (c :: rest) || containsSeg pat rest

/-- Whether pat occurs as a contiguous substring of s. -/
def strContainsStr (s pat : String) : Bool :=
  containsSeg pat.data s.data

/-- A single-quote character, as written by the Python repr of a string. -/
def pySquote : String := "\x27"

/-- Python repr of a plain string without quotes or escapes inside. -/
def pyReprStr (s : String) : String := pySquote ++ s ++ pySquote

/-- Python repr of a list of strings. -/
def pyReprList (xs : List String) : String :=
  "[" ++ String.intercalate ", " (xs.map pyReprStr) ++ "]"

/-- Python repr of a CompletedProcess that captured stderr only (bcp). -/
def reprCompletedProcessErr (args : List String) (rc : Int) (stderr : String) :
    String :=
  "CompletedProcess(args=" ++ pyReprList args ++ ", returncode=" ++ toString rc ++
    ", stderr=b" ++ pyReprStr stderr ++ ")"

/-- Python repr of a CompletedProcess that captured stdout and stderr (sqlcmd). -/
def reprCompletedProcessOutErr (args : List String) (rc : Int)
    (stdout stderr : String) : String :=
  "CompletedProcess(args=" ++ pyReprList args ++ ", returncode=" ++ toString rc ++
    ", stdout=b" ++ pyReprStr stdout ++ ", stderr=b" ++ pyReprStr stderr ++ ")"

/-- Truthiness of an optional Python string: None and the empty string are falsy. -/
def pyTruthy : Option String → Bool
  | Option.none => false
  | some s => !(s.data = [] : Bool)

/-- Model of hashlib sha512 hexdigest as applied by the module: the argument at
every call site is either a str or None, so the bytes branch of the source is
not reachable and is not modelled.  The digest computation itself is external
(hashlib); it is abstracted as the function parameter hexdigest. -/
def sha512 (hexdigest : String → String) : Option String → Except PyErr String
  | some s => .ok (hexdigest s)
  | Option.none => .error (.valueError "Invalid input. Cannot compute hash.")

/-- Target table reference (SqlTable in the host project). -/
structure SqlTable where
  schema : String
  table : String
  server : String
  database : String
  username : String
  password : String
  with_krb_auth : Bool
deriving DecidableEq, Repr

/-- Flat file reference (FlatFile in the host project); format_file_path models
the value returned by get_format_file_path(). -/
structure FlatFile where
  path : String
  format_file_path : String
  file_has_header_line : Bool
deriving DecidableEq, Repr

/-- The argument list built by bcp before the header interlude. -/
def bcp_base_command (sql_table : SqlTable) (flat_file : FlatFile)
    (batch_size : Nat) : List String :=
  let auth := if sql_table.with_krb_auth then ["-T"]
    else ["-U", sql_table.username, "-P", sql_table.password]
  ["bcp", sql_table.schema ++ "." ++ sql_table.table, "IN", flat_file.path,
    "-f", flat_file.format_file_path, "-S", sql_table.server,
    "-d", sql_table.database, "-b", toString batch_size] ++ auth

/-- The full bcp argument list, with the header-skip arguments appended when
the flat file has a header line. -/
def bcp_command (sql_table : SqlTable) (flat_file : FlatFile)
    (batch_size : Nat) : List String :=
  let base := bcp_base_command sql_table flat_file batch_size
  if flat_file.file_has_header_line then base ++ ["-F", "2", "-q", "-k"]
  else base

/-- The bcp function: build the command, run it, and raise on non-zero exit.
The try/except that scrubs the password from argument-construction errors is
dead in this model because list construction from record fields cannot raise;
note the raise on non-zero exit embeds str(result) with no scrubbing. -/
def bcp (run : List String → ProcResult) (sql_table : SqlTable)
    (flat_file : FlatFile) (batch_size : Nat) : Except PyErr Unit :=
  let cmd := bcp_command sql_table flat_file batch_size
  let result := run cmd
  if result.returncode ≠ 0 then
    .error (.exception ("Bcp command failed. Details:\n" ++
      reprCompletedProcessErr cmd result.returncode result.stderr))
  else
    .ok ()

/-- parse_blob_connection_str: rstrip the trailing semicolons, split on
semicolons, split each segment at its first equals sign, and fail when any
segment did not split into exactly two parts. -/
def parse_blob_connection_str (conn_str : String) :
    Except PyErr (List (String × String)) :=
  let stripped := pyRstripSemi conn_str
  let conn_settings := (pySplitChar ';' stripped).map pySplitEq1
  if conn_settings.any (fun tup => tup.length ≠ 2) then
    .error (.valueError "Connection string is either blank or malformed.")
  else
    .ok (conn_settings.map (fun tup => (tup.getD 0 "", tup.getD 1 "")))

/-- Lookup in the dict built from an association list: the last binding of a
key wins, as in the Python dict constructor. -/
def pyDictGet (d : List (String × String)) (k : String) : Option String :=
  ((d.filter (fun p => p.1 = k)).getLast?).map (fun p => p.2)

/-- Tabular result of the generic command runner: model of the DataFrame that
pandas.read_csv builds, at the granularity the module observes (column names
and rows of comma-separated string cells). -/
structure DataFrame where
  columns : List String
  rows : List (List String)
deriving DecidableEq, Repr

/-- The lines of a text stream as pandas sees them: a final newline terminates
the last line rather than opening an empty one. -/
def pyContentLines (s : String) : List String :=
  let parts := pySplitChar '\n' s
  match parts.getLast? with
  | some lst => if lst = "" then parts.dropLast else parts
  | Option.none => parts

/-- Model of pandas.read_csv restricted to the call in sqlcmd: comma-separated
cells, positional skiprows, default skip_blank_lines, header taken from the
first remaining line when header is inferred and default integer column names
otherwise, and EmptyDataError when nothing is left to parse. -/
def read_csv (input : String) (skiprows : List Nat) (header : Bool) :
    Except PyErr DataFrame :=
  let lines := pyContentLines input
  let kept := (lines.enum.filter (fun p => !(skiprows.contains p.1))).map
    (fun p => p.2)
  let content := kept.filter (fun l => !(l == ""))
  match content with
  | [] => .error .emptyDataError
  | first :: rest =>
    if header then
      .ok ⟨pySplitChar ',' first, rest.map (pySplitChar ',')⟩
    else
      .ok ⟨(List.range (pySplitChar ',' first).length).map (fun n => toString n),
        (first :: rest).map (pySplitChar ',')⟩

/-- The argument list built by sqlcmd, with the row-count suppression prefix
prepended to the query text. -/
def sqlcmd_command (server database command : String)
    (username password : Option String) : List String :=
  let auth := if pyTruthy username = false || pyTruthy password = false then
      ["-E"]
    else ["-U", username.getD "", "-P", password.getD ""]
  ["sqlcmd", "-S", server, "-d", database, "-b"] ++ auth ++
    ["-I", "-s,", "-W", "-Q", "set nocount on;" ++ command]

/-- The sqlcmd function: run the client, raise a scrubbed error on non-zero
exit (evaluating sha512 on the password first, exactly as the Python argument
evaluation order does), otherwise decode stdout as ASCII, infer a header from
the first line, and parse the output with read_csv, mapping EmptyDataError to
an absent result. -/
def sqlcmd (run : List String → ProcResult) (hexdigest : String → String)
    (server database command : String) (username password : Option String) :
    Except PyErr (Option DataFrame) :=
  let cmd := sqlcmd_command server database command username password
  let result := run cmd
  if result.returncode ≠ 0 then
    match sha512 hexdigest password with
    | .error e => .error e
    | .ok hashed =>
      let result_dump := pyReplace
        (reprCompletedProcessOutErr cmd result.returncode result.stdout
          result.stderr) (password.getD "") hashed
      .error (.exception ("Sqlcmd command failed. Details:\n" ++ result_dump))
  else
    match pyDecodeAscii result.stdout with
    | .error e => .error e
    | .ok out =>
      let first_line_output := pyStrip (pyReadline out)
      let header := !(first_line_output == "")
      match read_csv out [1] header with
      | .error .emptyDataError => .ok Option.none
      | .error e => .error e
      | .ok df => .ok (some df)

/-- The permission set constructed by bcpaz for the container SAS. -/
structure BlobSasPermissions where
  read : Bool
  add : Bool
  create : Bool
  write : Bool
  delete : Bool
  delete_previous_version : Bool
  tag : Bool
deriving DecidableEq, Repr

/-- The BlobSasPermissions value built in bcpaz: every flag set. -/
def bcpaz_perms : BlobSasPermissions :=
  ⟨true, true, true, true, true, true, true⟩

/-- The arguments bcpaz hands to generate_container_sas; expiry is measured in
seconds, so now plus twenty-four hours is now + 24 * 3600. -/
structure SasRequest where
  account_name : String
  account_key : String
  container_name : String
  permission : BlobSasPermissions
  expiry : Int
deriving DecidableEq, Repr

/-- External effects performed by bcpaz, in order. -/
inductive AzEvent where
  | upload (container blob : String)
  | mintSas (req : SasRequest)
  | runSql (sql : String)
  | deleteBlob (container blob : String)
deriving DecidableEq, Repr

/-- Environment of external behaviour for bcpaz: the subprocess runner and
hash used by the inner sqlcmd call, the rendering of a SAS token from its
request (azure generate_container_sas), the current time in seconds
(datetime.now), and the outcome of the blob upload. -/
structure AzEnv where
  run : List String → ProcResult
  hexdigest : String → String
  genSas : SasRequest → String
  now : Int
  uploadResult : Except PyErr Unit

/-- The connection string after the slash-appending prologue of bcpaz. -/
def conn_with_slash (conn : String) : String :=
  if conn.data.getLastD ' ' ≠ '/' then conn ++ "/" else conn

/-- The COPY INTO statement template of bcpaz with its five placeholders
substituted; the blob URL host is the hard-coded account host. -/
def copy_into_sql (table_name schema_name blob_name container_name sas :
    String) : String :=
  "\n    COPY INTO [" ++ schema_name ++ "].[" ++ table_name ++ "]\n    FROM " ++
  pySquote ++ "https://arcturusdevstgacc.blob.core.windows.net/" ++
  container_name ++ "/" ++ blob_name ++ pySquote ++
  "\n    WITH (\n        FILE_TYPE = " ++ pySquote ++ "CSV" ++ pySquote ++
  ",\n        CREDENTIAL=(IDENTITY= " ++ pySquote ++
  "Shared Access Signature" ++ pySquote ++ ", SECRET=" ++ pySquote ++ sas ++
  pySquote ++ "),\n        FIELDQUOTE = " ++ pySquote ++ "\"" ++ pySquote ++
  ",\n        FIELDTERMINATOR=" ++ pySquote ++ "," ++ pySquote ++
  ",\n        FIRSTROW=2, -- Skip header\n        ROWTERMINATOR=" ++
  pySquote ++ "0X0A" ++ pySquote ++ ",\n        ENCODING = " ++ pySquote ++
  "UTF8" ++ pySquote ++ ",\n        MAXERRORS = 0,\n        ERRORFILE = " ++
  pySquote ++ "/errorsfolder_" ++ blob_name ++ pySquote ++
  " --path starting from the storage container\n    )\n    "

/-- The bcpaz function: append a slash to the connection string when it does
not already end in one (indexing raises on an empty string), upload the file
to a blob named after its base name, parse the (modified) connection string,
mint a container SAS from the parsed account name and key expiring 24 hours
from now, issue the COPY INTO statement through sqlcmd with the table
credentials, and delete the staged blob only after sqlcmd returns
successfully.  The returned list records the external effects in order. -/
def bcpaz (env : AzEnv) (sql_table : SqlTable) (flat_file : FlatFile)
    (azure_storage_connection_string azure_temp_storage_container : String) :
    Except PyErr Unit × List AzEvent :=
  if azure_storage_connection_string.data = [] then
    (.error (.indexError "string index out of range"), [])
  else
    let conn_string := conn_with_slash azure_storage_connection_string
    let container_name := azure_temp_storage_container
    let blob_name := pyBasename flat_file.path
    match env.uploadResult with
    | .error e => (.error e, [])
    | .ok _ =>
      let ev0 := [AzEvent.upload container_name blob_name]
      match parse_blob_connection_str conn_string with
      | .error e => (.error e, ev0)
      | .ok blob_conn =>
        match pyDictGet blob_conn "AccountName" with
        | Option.none => (.error (.keyError "AccountName"), ev0)
        | some account_name =>
          match pyDictGet blob_conn "AccountKey" with
          | Option.none => (.error (.keyError "AccountKey"), ev0)
          | some account_key =>
            let req : SasRequest :=
              ⟨account_name, account_key, container_name, bcpaz_perms,
                env.now + 24 * 3600⟩
            let sas := env.genSas req
            let ev1 := ev0 ++ [AzEvent.mintSas req]
            let sql := copy_into_sql sql_table.table sql_table.schema
              blob_name container_name sas
            let ev2 := ev1 ++ [AzEvent.runSql sql]
            match sqlcmd env.run env.hexdigest sql_table.server
              sql_table.database sql (some sql_table.username)
              (some sql_table.password) with
            | .error e => (.error e, ev2)
            | .ok _ =>
              (.ok (), ev2 ++ [AzEvent.deleteBlob container_name blob_name])

/-- Rendering of key=value pairs as a semicolon-separated connection string. -/
def joinConn (pairs : List (String × String)) : String :=
  String.mk (List.intercalate [';'] (pairs.map (fun p => p.1.data ++ '=' :: p.2.data)))

/-- A concrete target table with password authentication. -/
def fx_table : SqlTable := ⟨"dbo", "t1", "srv", "db", "user1", "hunter2", false⟩

/-- A concrete flat file whose first line is a header. -/
def fx_file_header : FlatFile := ⟨"/tmp/f.csv", "/tmp/f.fmt", true⟩

/-- The same flat file without a header line. -/
def fx_file_noheader : FlatFile := ⟨"/tmp/f.csv", "/tmp/f.fmt", false⟩

/-- A process runner whose process always exits with status 1. -/
def fx_run_fail : List String → ProcResult := fun _ => ⟨1, "", "boom"⟩

/-- A process runner whose process succeeds with empty output. -/
def fx_run_empty : List String → ProcResult := fun _ => ⟨0, "", ""⟩

/-- A process runner whose process succeeds and prints a small table. -/
def fx_run_table : List String → ProcResult :=
  fun _ => ⟨0, "colA,colB\n-,-\n1,x\n2,y\n", ""⟩

/-- A concrete stand-in for the sha512 hexdigest. -/
def fx_hex : String → String := fun s => "h(" ++ s ++ ")"

/-- A concrete SAS rendering. -/
def fx_sas : SasRequest → String := fun r => "SAS-" ++ r.account_name

/-- A bcpaz environment whose load statement succeeds. -/
def fx_env_ok : AzEnv := ⟨fx_run_empty, fx_hex, fx_sas, 1000, .ok ()⟩

/-- A bcpaz environment whose load statement fails. -/
def fx_env_fail : AzEnv := ⟨fx_run_fail, fx_hex, fx_sas, 1000, .ok ()⟩

lemma isPrefixOf_self_append (l y : List Char) : l.isPrefixOf (l ++ y) = true := by
  rw [List.isPrefixOf_iff_prefix]
  exact List.prefix_append l y

lemma containsSeg_append_left (pat y : List Char) :
    containsSeg pat (pat ++ y) = true := by
  cases pat with
  | nil => cases y <;> simp [containsSeg]
  | cons c cs =>
    show containsSeg (c :: cs) ((c :: cs) ++ y) = true
    rw [List.cons_append]
    simp only [containsSeg, Bool.or_eq_true]
    left
    rw [← List.cons_append]
    exact isPrefixOf_self_append (c :: cs) y

lemma containsSeg_append_right (pat x y : List Char)
    (h : containsSeg pat y = true) : containsSeg pat (x ++ y) = true := by
  induction x with
  | nil => simpa using h
  | cons c cs ih =>
    rw [List.cons_append]
    simp only [containsSeg, Bool.or_eq_true]
    right
    exact ih

/-- C10: when sqlcmd is invoked with no username and no password (integrated
authentication) and the external process exits non-zero, the exception raised
is the hash-computation ValueError from applying sha512 to the absent
password, not the command-execution error. -/
theorem sqlcmd_integrated_auth_failure_raises_hash_valueerror
    (run : List String → ProcResult) (hexdigest : String → String)
    (server database command : String)
    (h : (run (sqlcmd_command server database command Option.none
      Option.none)).returncode ≠ 0) :
    sqlcmd run hexdigest server database command Option.none Option.none =
      Except.error (PyErr.valueError "Invalid input. Cannot compute hash.") := by
  simp only [sqlcmd]
  rw [if_pos h]
  rfl

/-- Witness for C10 at a concrete always-failing runner. -/
theorem sqlcmd_integrated_auth_failure_raises_hash_valueerror_witness :
    sqlcmd fx_run_fail fx_hex "srv" "db" "select 1" Option.none Option.none =
      Except.error (PyErr.valueError "Invalid input. Cannot compute hash.") :=
  sqlcmd_integrated_auth_failure_raises_hash_valueerror fx_run_fail fx_hex
    "srv" "db" "select 1" (by decide)

/-- C7: whenever the external process behind sqlcmd succeeds with empty
captured standard output, the runner returns an absent result (None) rather
than raising. -/
theorem sqlcmd_empty_output_returns_none
    (run : List String → ProcResult) (hexdigest : String → String)
    (server database command : String) (username password : Option String)
    (stderr : String)
    (h : run (sqlcmd_command server database command username password) =
      ⟨0, "", stderr⟩) :
    sqlcmd run hexdigest server database command username password =
      Except.ok Option.none := by
  simp only [sqlcmd]
  rw [h]
  rfl

/-- Witness for C7 at a concrete empty-output runner. -/
theorem sqlcmd_empty_output_returns_none_witness :
    sqlcmd fx_run_empty fx_hex "srv" "db" "select 1" (some "u") (some "p") =
      Except.ok Option.none :=
  sqlcmd_empty_output_returns_none fx_run_empty fx_hex "srv" "db" "select 1"
    (some "u") (some "p") "" rfl

/-- C6: when the process behind sqlcmd succeeds and its captured standard
output is exactly the header line, the diagnostic separator line and two data
rows, the runner returns the table with those columns and exactly those two
rows: the header is inferred from the non-blank first line and the separator
line after the header is skipped. -/
theorem sqlcmd_parses_header_separator_rows
    (run : List String → ProcResult) (hexdigest : String → String)
    (server database command : String) (username password : Option String)
    (stderr : String)
    (h : run (sqlcmd_command server database command username password) =
      ⟨0, "colA,colB\n-,-\n1,x\n2,y\n", stderr⟩) :
    sqlcmd run hexdigest server database command username password =
      Except.ok (some ⟨["colA", "colB"], [["1", "x"], ["2", "y"]]⟩) := by
  simp only [sqlcmd]
  rw [h]
  rfl

/-- Witness for C6 at a concrete table-printing runner. -/
theorem sqlcmd_parses_header_separator_rows_witness :
    sqlcmd fx_run_table fx_hex "srv" "db" "select 1" (some "u") (some "p") =
      Except.ok (some ⟨["colA", "colB"], [["1", "x"], ["2", "y"]]⟩) :=
  sqlcmd_parses_header_separator_rows fx_run_table fx_hex "srv" "db"
    "select 1" (some "u") (some "p") "" rfl

/-- C8 counterexample: with a header line the constructed bcp command gains
four extra arguments over the headerless command, not two, so the claim that
header skipping adds two extra flags fails on this concrete input. -/
theorem bcp_command_header_adds_four_not_two :
    bcp_command fx_table fx_file_header 1000 =
      bcp_command fx_table fx_file_noheader 1000 ++ ["-F", "2", "-q", "-k"] ∧
    (bcp_command fx_table fx_file_header 1000).length = 20 ∧
    (bcp_command fx_table fx_file_noheader 1000).length = 16 ∧
    ¬((bcp_command fx_table fx_file_header 1000).length =
      (bcp_command fx_table fx_file_noheader 1000).length + 2) := by
  refine ⟨rfl, rfl, rfl, ?_⟩
  decide

/-- C8 amended: when the flat file has a header line the constructed command
is the base command followed by exactly the four header-skip arguments -F, 2,
-q, -k; when it does not, the command is exactly the base command with none of
them appended. -/
theorem bcp_command_header_skip_arguments
    (sql_table : SqlTable) (flat_file : FlatFile) (batch_size : Nat) :
    (flat_file.file_has_header_line = true →
      bcp_command sql_table flat_file batch_size =
        bcp_base_command sql_table flat_file batch_size ++
          ["-F", "2", "-q", "-k"]) ∧
    (flat_file.file_has_header_line = false →
      bcp_command sql_table flat_file batch_size =
        bcp_base_command sql_table flat_file batch_size) := by
  constructor <;> intro h <;> simp [bcp_command, h]

/-- Witness for C8 amended at the concrete fixtures. -/
theorem bcp_command_header_skip_arguments_witness :
    bcp_command fx_table fx_file_header 1000 =
      bcp_base_command fx_table fx_file_header 1000 ++
        ["-F", "2", "-q", "-k"] ∧
    bcp_command fx_table fx_file_noheader 1000 =
      bcp_base_command fx_table fx_file_noheader 1000 :=
  ⟨(bcp_command_header_skip_arguments fx_table fx_file_header 1000).1 rfl,
   (bcp_command_header_skip_arguments fx_table fx_file_noheader 1000).2 rfl⟩

/-- C1: at a concrete failing invocation with password authentication, the
error raised by bcp contains the raw password verbatim — the captured-process
text is embedded unscrubbed, contradicting the claim that the password is
always replaced by its hash and never appears. -/
theorem bcp_failure_message_contains_raw_password :
    ∃ m, bcp fx_run_fail fx_table fx_file_header 1000 =
        Except.error (PyErr.exception m) ∧
      strContainsStr m "hunter2" = true ∧
      strContainsStr m "Bcp command failed." = true := by
  refine ⟨_, rfl, ?_, ?_⟩ <;> decide

/-- C5: at a concrete well-formed connection descriptor with a trailing
semicolon, bcpaz raises the malformed-connection-string ValueError out of its
parsing step (because of the slash appended beforehand), even though
parse_blob_connection_str alone tolerates the same descriptor. -/
theorem bcpaz_trailing_semicolon_raises :
    bcpaz fx_env_ok fx_table fx_file_header "AccountName=a;AccountKey=k;"
        "cont" =
      (Except.error
        (PyErr.valueError "Connection string is either blank or malformed."),
       [AzEvent.upload "cont" "f.csv"]) ∧
    parse_blob_connection_str "AccountName=a;AccountKey=k;" =
      Except.ok [("AccountName", "a"), ("AccountKey", "k")] :=
  ⟨rfl, rfl⟩

lemma bcpaz_cases (env : AzEnv) (t : SqlTable) (f : FlatFile)
    (conn container : String) :
    (∃ e, bcpaz env t f conn container = (Except.error e, [])) ∨
    (∃ e, bcpaz env t f conn container =
      (Except.error e, [AzEvent.upload container (pyBasename f.path)])) ∨
    (∃ an ak settings,
      parse_blob_connection_str (conn_with_slash conn) = Except.ok settings ∧
      pyDictGet settings "AccountName" = some an ∧
      pyDictGet settings "AccountKey" = some ak ∧
      ((∃ e, bcpaz env t f conn container =
        (Except.error e,
         [AzEvent.upload container (pyBasename f.path),
          AzEvent.mintSas ⟨an, ak, container, bcpaz_perms, env.now + 24 * 3600⟩,
          AzEvent.runSql (copy_into_sql t.table t.schema (pyBasename f.path)
            container (env.genSas
              ⟨an, ak, container, bcpaz_perms, env.now + 24 * 3600⟩))])) ∨
       bcpaz env t f conn container =
        (Except.ok (),
         [AzEvent.upload container (pyBasename f.path),
          AzEvent.mintSas ⟨an, ak, container, bcpaz_perms, env.now + 24 * 3600⟩,
          AzEvent.runSql (copy_into_sql t.table t.schema (pyBasename f.path)
            container (env.genSas
              ⟨an, ak, container, bcpaz_perms, env.now + 24 * 3600⟩)),
          AzEvent.deleteBlob container (pyBasename f.path)]))) := by
  by_cases h0 : conn.data = []
  · left
    exact ⟨PyErr.indexError "string index out of range", by simp [bcpaz, h0]⟩
  · cases hup : env.uploadResult with
    | error e => exact Or.inl ⟨e, by simp [bcpaz, h0, hup]⟩
    | ok u =>
      cases hp : parse_blob_connection_str (conn_with_slash conn) with
      | error e => exact Or.inr (Or.inl ⟨e, by simp [bcpaz, h0, hup, hp]⟩)
      | ok bc =>
        cases h1 : pyDictGet bc "AccountName" with
        | none =>
          exact Or.inr (Or.inl ⟨PyErr.keyError "AccountName",
            by simp [bcpaz, h0, hup, hp, h1]⟩)
        | some an =>
          cases h2 : pyDictGet bc "AccountKey" with
          | none =>
            exact Or.inr (Or.inl ⟨PyErr.keyError "AccountKey",
              by simp [bcpaz, h0, hup, hp, h1, h2]⟩)
          | some ak =>
            cases h3 : sqlcmd env.run env.hexdigest t.server t.database
              (copy_into_sql t.table t.schema (pyBasename f.path) container
                (env.genSas ⟨an, ak, container, bcpaz_perms,
                  env.now + 86400⟩))
              (some t.username) (some t.password) with
            | error e =>
              exact Or.inr (Or.inr ⟨an, ak, bc, rfl, h1, h2,
                Or.inl ⟨e, by simp [bcpaz, h0, hup, hp, h1, h2, h3]⟩⟩)
            | ok v =>
              exact Or.inr (Or.inr ⟨an, ak, bc, rfl, h1, h2,
                Or.inr (by simp [bcpaz, h0, hup, hp, h1, h2, h3])⟩)

/-- C2: in every blob-staged load, the staged blob is deleted exactly on the
success path: when the whole call succeeds the event trace is upload, SAS
minting, the load statement, then blob deletion; and whenever a blob deletion
appears in the trace the call succeeded, so a failing load statement never
reaches the deletion. -/
theorem bcpaz_blob_deleted_iff_load_succeeds (env : AzEnv) (t : SqlTable)
    (f : FlatFile) (conn container : String) :
    ((bcpaz env t f conn container).1 = Except.ok () →
      ∃ req sas, (bcpaz env t f conn container).2 =
        [AzEvent.upload container (pyBasename f.path), AzEvent.mintSas req,
         AzEvent.runSql (copy_into_sql t.table t.schema (pyBasename f.path)
           container sas),
         AzEvent.deleteBlob container (pyBasename f.path)]) ∧
    (∀ c b, AzEvent.deleteBlob c b ∈ (bcpaz env t f conn container).2 →
      (bcpaz env t f conn container).1 = Except.ok ()) := by
  rcases bcpaz_cases env t f conn container with ⟨e, h⟩ | ⟨e, h⟩ |
    ⟨an, ak, settings, hp, h1, h2, ⟨e, h⟩ | h⟩ <;> rw [h]
  · exact ⟨fun hh => by simp at hh, fun c b hb => by simp at hb⟩
  · exact ⟨fun hh => by simp at hh, fun c b hb => by simp at hb⟩
  · exact ⟨fun hh => by simp at hh, fun c b hb => by simp at hb⟩
  · exact ⟨fun _ => ⟨_, _, rfl⟩, fun c b _ => rfl⟩

/-- Witness for C2: a successful concrete run deletes the staged blob last. -/
theorem bcpaz_blob_deleted_iff_load_succeeds_witness :
    (bcpaz fx_env_ok fx_table fx_file_header "AccountName=a;AccountKey=k"
      "cont").1 = Except.ok () ∧
    ∃ req sas, (bcpaz fx_env_ok fx_table fx_file_header
        "AccountName=a;AccountKey=k" "cont").2 =
      [AzEvent.upload "cont" (pyBasename fx_file_header.path),
       AzEvent.mintSas req,
       AzEvent.runSql (copy_into_sql fx_table.table fx_table.schema
         (pyBasename fx_file_header.path) "cont" sas),
       AzEvent.deleteBlob "cont" (pyBasename fx_file_header.path)] :=
  ⟨rfl, (bcpaz_blob_deleted_iff_load_succeeds fx_env_ok fx_table
    fx_file_header "AccountName=a;AccountKey=k" "cont").1 rfl⟩

/-- C3: every SAS request minted by bcpaz carries the AccountName and
AccountKey of the parsed connection descriptor, is scoped to exactly the
target container, has exactly the all-true permission record, and expires
exactly 24 hours after its generation time. -/
theorem bcpaz_sas_request_shape (env : AzEnv) (t : SqlTable) (f : FlatFile)
    (conn container : String) (req : SasRequest)
    (h : AzEvent.mintSas req ∈ (bcpaz env t f conn container).2) :
    req.container_name = container ∧
    req.permission = bcpaz_perms ∧
    req.expiry = env.now + 24 * 3600 ∧
    ∃ settings,
      parse_blob_connection_str (conn_with_slash conn) = Except.ok settings ∧
      pyDictGet settings "AccountName" = some req.account_name ∧
      pyDictGet settings "AccountKey" = some req.account_key := by
  rcases bcpaz_cases env t f conn container with ⟨e, hh⟩ | ⟨e, hh⟩ |
    ⟨an, ak, settings, hp, h1, h2, ⟨e, hh⟩ | hh⟩ <;> rw [hh] at h <;>
    simp at h
  · rcases h with ⟨rfl, rfl, rfl, rfl, rfl⟩
    exact ⟨rfl, rfl, rfl, settings, hp, h1, h2⟩
  · rcases h with ⟨rfl, rfl, rfl, rfl, rfl⟩
    exact ⟨rfl, rfl, rfl, settings, hp, h1, h2⟩

set_option maxRecDepth 8192 in
/-- Witness for C3 at a concrete run: the minted request is scoped to the
container with the fixed permissions and a 24-hour expiry. -/
theorem bcpaz_sas_request_shape_witness :
    (⟨"a", "k/", "cont", bcpaz_perms, 87400⟩ : SasRequest).container_name =
      "cont" ∧
    (⟨"a", "k/", "cont", bcpaz_perms, 87400⟩ : SasRequest).permission =
      bcpaz_perms ∧
    (⟨"a", "k/", "cont", bcpaz_perms, 87400⟩ : SasRequest).expiry =
      fx_env_ok.now + 24 * 3600 ∧
    ∃ settings,
      parse_blob_connection_str (conn_with_slash "AccountName=a;AccountKey=k") =
        Except.ok settings ∧
      pyDictGet settings "AccountName" =
        some (⟨"a", "k/", "cont", bcpaz_perms, 87400⟩ : SasRequest).account_name ∧
      pyDictGet settings "AccountKey" =
        some (⟨"a", "k/", "cont", bcpaz_perms, 87400⟩ : SasRequest).account_key :=
  bcpaz_sas_request_shape fx_env_ok fx_table fx_file_header
    "AccountName=a;AccountKey=k" "cont"
    ⟨"a", "k/", "cont", bcpaz_perms, 87400⟩ (by decide)

/-- C9: every COPY INTO statement issued by bcpaz is the fixed template
instantiated only with the table, schema, blob name, container and SAS token,
and its blob URL always uses the hard-coded host
arcturusdevstgacc.blob.core.windows.net regardless of the storage account
named by the connection descriptor. -/
theorem bcpaz_copy_into_uses_fixed_host (env : AzEnv) (t : SqlTable)
    (f : FlatFile) (conn container s : String)
    (h : AzEvent.runSql s ∈ (bcpaz env t f conn container).2) :
    (∃ sas, s = copy_into_sql t.table t.schema (pyBasename f.path) container
      sas) ∧
    strContainsStr s "https://arcturusdevstgacc.blob.core.windows.net/" =
      true := by
  rcases bcpaz_cases env t f conn container with ⟨e, hh⟩ | ⟨e, hh⟩ |
    ⟨an, ak, settings, hp, h1, h2, ⟨e, hh⟩ | hh⟩ <;> rw [hh] at h <;>
    simp at h
  all_goals subst h
  all_goals refine ⟨⟨_, rfl⟩, ?_⟩
  all_goals simp only [strContainsStr, copy_into_sql, String.data_append,
    List.append_assoc]
  all_goals repeat
    first
    | exact containsSeg_append_left _ _
    | apply containsSeg_append_right

set_option maxRecDepth 8192 in
/-- Witness for C9 at a concrete run. -/
theorem bcpaz_copy_into_uses_fixed_host_witness :
    (∃ sas, copy_into_sql fx_table.table fx_table.schema
        (pyBasename fx_file_header.path) "cont"
        (fx_sas ⟨"a", "k/", "cont", bcpaz_perms, 87400⟩) =
      copy_into_sql fx_table.table fx_table.schema
        (pyBasename fx_file_header.path) "cont" sas) ∧
    strContainsStr (copy_into_sql fx_table.table fx_table.schema
        (pyBasename fx_file_header.path) "cont"
        (fx_sas ⟨"a", "k/", "cont", bcpaz_perms, 87400⟩))
      "https://arcturusdevstgacc.blob.core.windows.net/" = true :=
  bcpaz_copy_into_uses_fixed_host fx_env_ok fx_table fx_file_header
    "AccountName=a;AccountKey=k" "cont"
    (copy_into_sql fx_table.table fx_table.schema
      (pyBasename fx_file_header.path) "cont"
      (fx_sas ⟨"a", "k/", "cont", bcpaz_perms, 87400⟩)) (by decide)

lemma dropWhileRev_eq_self (l : List Char) (h : l.getLast? ≠ some ';') :
    (l.reverse.dropWhile (fun c => c = ';')).reverse = l := by
  induction l using List.reverseRecOn with
  | nil => rfl
  | append_singleton xs x ih =>
    have hx : x ≠ ';' := by
      rw [List.getLast?_concat] at h
      simpa using h
    simp [List.reverse_append, List.dropWhile_cons, hx]

lemma dropWhileRev_append_semi (l : List Char) :
    ((l ++ [';']).reverse.dropWhile (fun c => c = ';')).reverse =
      (l.reverse.dropWhile (fun c => c = ';')).reverse := by
  simp [List.reverse_append, List.dropWhile_cons]

lemma intercalate_pair (k v : List Char) :
    List.intercalate ['='] [k, v] = k ++ '=' :: v := by
  simp [List.intercalate, List.intersperse]

lemma intercalate_one (v : List Char) : List.intercalate ['='] [v] = v := by
  simp [List.intercalate, List.intersperse]

lemma intercalate_semi_cons_cons (c c2 : List Char) (cs : List (List Char)) :
    List.intercalate [';'] (c :: c2 :: cs) =
      c ++ ';' :: List.intercalate [';'] (c2 :: cs) := by
  simp [List.intercalate, List.intersperse_cons_cons]

lemma intercalate_semi_cons_ne_nil (c2 : List Char) (cs : List (List Char))
    (h : c2 ≠ []) : List.intercalate [';'] (c2 :: cs) ≠ [] := by
  cases cs with
  | nil => simpa [List.intercalate, List.intersperse] using h
  | cons c3 cs3 =>
    rw [intercalate_semi_cons_cons]
    intro hh
    rcases List.append_eq_nil.mp hh with ⟨h1, h2⟩
    cases h2

lemma intercalate_getLast?_ne_semi (chunks : List (List Char))
    (hne : chunks ≠ []) (hc : ∀ c ∈ chunks, c ≠ [] ∧ ';' ∉ c) :
    (List.intercalate [';'] chunks).getLast? ≠ some ';' := by
  induction chunks with
  | nil => exact absurd rfl hne
  | cons c cs ih =>
    cases cs with
    | nil =>
      have h1 : List.intercalate [';'] [c] = c := intercalate_one c
      rw [h1]
      obtain ⟨hcne, hcsem⟩ := hc c (by simp)
      intro hl
      rw [List.getLast?_eq_some_iff] at hl
      obtain ⟨ys, rfl⟩ := hl
      exact hcsem (by simp)
    | cons c2 cs2 =>
      rw [intercalate_semi_cons_cons, List.getLast?_append_cons]
      have hr : List.intercalate [';'] (c2 :: cs2) ≠ [] :=
        intercalate_semi_cons_ne_nil c2 cs2 (hc c2 (by simp)).1
      have h2 : (';' :: List.intercalate [';'] (c2 :: cs2)).getLast? =
          (List.intercalate [';'] (c2 :: cs2)).getLast? := by
        cases hrr : List.intercalate [';'] (c2 :: cs2) with
        | nil => exact absurd hrr hr
        | cons a as => rw [List.getLast?_cons_cons]
      rw [h2]
      exact ih (by simp) (fun d hd => hc d (List.mem_cons_of_mem c hd))

lemma splitOn_chunk (k v : List Char) (hk : '=' ∉ k) (hv : '=' ∉ v) :
    (k ++ '=' :: v).splitOn '=' = [k, v] := by
  have h := List.splitOn_intercalate [k, v] '='
    (by
      intro l hl
      simp only [List.mem_cons, List.not_mem_nil, or_false] at hl
      rcases hl with rfl | rfl
      exacts [hk, hv])
    (by simp)
  rwa [intercalate_pair k v] at h

lemma pySplitEq1_chunk (k v : List Char) (hk : '=' ∉ k) (hv : '=' ∉ v) :
    pySplitEq1 (String.mk (k ++ '=' :: v)) = [String.mk k, String.mk v] := by
  unfold pySplitEq1
  rw [show (String.mk (k ++ '=' :: v)).data = k ++ '=' :: v from rfl,
    splitOn_chunk k v hk hv]
  simp [intercalate_one]

lemma parse_join (pairs : List (String × String)) (hne : pairs ≠ [])
    (hcond : ∀ p ∈ pairs, '=' ∉ p.1.data ∧ ';' ∉ p.1.data ∧
      '=' ∉ p.2.data ∧ ';' ∉ p.2.data) :
    parse_blob_connection_str (joinConn pairs) = Except.ok pairs ∧
    parse_blob_connection_str (joinConn pairs ++ ";") = Except.ok pairs := by
  have hch_ne : ∀ c ∈ pairs.map (fun p => p.1.data ++ '=' :: p.2.data),
      c ≠ [] ∧ ';' ∉ c := by
    intro c hcmem
    obtain ⟨p, hp, rfl⟩ := List.mem_map.mp hcmem
    obtain ⟨h1, h2, h3, h4⟩ := hcond p hp
    refine ⟨by simp, ?_⟩
    intro hmem
    rcases List.mem_append.mp hmem with hm | hm
    · exact h2 hm
    · rcases List.mem_cons.mp hm with he | hm2
      · cases he
      · exact h4 hm2
  have hch_nonnil : pairs.map (fun p => p.1.data ++ '=' :: p.2.data) ≠ [] := by
    simpa using hne
  have hlast : (List.intercalate [';']
      (pairs.map (fun p => p.1.data ++ '=' :: p.2.data))).getLast? ≠
      some ';' :=
    intercalate_getLast?_ne_semi _ hch_nonnil hch_ne
  have hstrip1 : pyRstripSemi (joinConn pairs) = String.mk
      (List.intercalate [';'] (pairs.map (fun p => p.1.data ++ '=' ::
        p.2.data))) := by
    unfold pyRstripSemi joinConn
    exact congrArg String.mk (dropWhileRev_eq_self _ hlast)
  have hstrip2 : pyRstripSemi (joinConn pairs ++ ";") = String.mk
      (List.intercalate [';'] (pairs.map (fun p => p.1.data ++ '=' ::
        p.2.data))) := by
    unfold pyRstripSemi
    have hdata : (joinConn pairs ++ ";").data =
        List.intercalate [';'] (pairs.map (fun p => p.1.data ++ '=' ::
          p.2.data)) ++ [';'] := by
      simp [joinConn, String.data_append]
    rw [hdata]
    exact congrArg String.mk
      ((dropWhileRev_append_semi _).trans (dropWhileRev_eq_self _ hlast))
  have hsettings : (pySplitChar ';' (String.mk (List.intercalate [';']
      (pairs.map (fun p => p.1.data ++ '=' :: p.2.data))))).map pySplitEq1 =
      pairs.map (fun p => [p.1, p.2]) := by
    unfold pySplitChar
    rw [show (String.mk (List.intercalate [';'] (pairs.map (fun p =>
      p.1.data ++ '=' :: p.2.data)))).data = List.intercalate [';']
      (pairs.map (fun p => p.1.data ++ '=' :: p.2.data)) from rfl]
    rw [List.splitOn_intercalate (pairs.map (fun p => p.1.data ++ '=' ::
      p.2.data)) ';' (fun c hcm => (hch_ne c hcm).2) hch_nonnil]
    rw [List.map_map, List.map_map]
    refine List.map_congr_left (fun p hp => ?_)
    obtain ⟨h1, h2, h3, h4⟩ := hcond p hp
    exact pySplitEq1_chunk p.1.data p.2.data h1 h3
  have htail : ∀ s : String, pyRstripSemi s = String.mk (List.intercalate
      [';'] (pairs.map (fun p => p.1.data ++ '=' :: p.2.data))) →
      parse_blob_connection_str s = Except.ok pairs := by
    intro s hs
    simp only [parse_blob_connection_str]
    rw [hs, hsettings]
    have hfalse : ((List.map (fun p : String × String => [p.1, p.2])
        pairs).any fun tup => decide ¬tup.length = 2) = false := by
      simp [List.any_map, Function.comp]
      intro x a b hmem hx
      subst hx
      rfl
    have hfun : ((fun tup : List String => (tup.getD 0 "", tup.getD 1 "")) ∘
        fun p : String × String => [p.1, p.2]) = fun p => p := by
      funext p
      rfl
    rw [List.map_map, hfun]
    simp only [hfalse, Bool.false_eq_true, if_false]
    rw [List.map_id']
  exact ⟨htail _ hstrip1, htail _ hstrip2⟩

lemma parse_error_of_noeq (conn : String)
    (h : ∃ seg ∈ pySplitChar ';' (pyRstripSemi conn), '=' ∉ seg.data) :
    parse_blob_connection_str conn =
      Except.error
        (PyErr.valueError "Connection string is either blank or malformed.") := by
  obtain ⟨seg, hm, hno⟩ := h
  have hseg : pySplitEq1 seg = [String.mk seg.data] := by
    unfold pySplitEq1
    have hsp : seg.data.splitOn '=' = [seg.data] := by
      rw [List.splitOn]
      exact List.splitOnP_eq_single _ _
        (fun x hx hbeq => hno (eq_of_beq hbeq ▸ hx))
    rw [hsp]
  have hany : ((pySplitChar ';' (pyRstripSemi conn)).map pySplitEq1).any
      (fun tup => tup.length ≠ 2) = true := by
    rw [List.any_eq_true]
    exact ⟨pySplitEq1 seg, List.mem_map_of_mem _ hm, by simp [hseg]⟩
  simp only [parse_blob_connection_str]
  rw [if_pos hany]

/-- C4 counterexample: a segment with two equals signs does not raise — the
parser splits it at the first equals sign and returns the remainder in the
value, so the claim that any segment without exactly one equals sign raises a
configuration error fails at this input. -/
theorem parse_blob_connection_two_equals_no_error :
    parse_blob_connection_str "A=B=C" = Except.ok [("A", "B=C")] ∧
    "A=B=C".data.count '=' = 2 :=
  ⟨rfl, rfl⟩

/-- C4 amended: for every connection string rendered from key=value pairs
whose keys and values contain no equals sign or semicolon (trailing semicolon
optional), parsing returns exactly those pairs; and any input containing a
semicolon-separated segment with no equals sign at all raises the
configuration error.  Segments with more than one equals sign do not raise:
they split at the first one. -/
theorem parse_blob_connection_mapping_and_errors :
    (∀ pairs : List (String × String), pairs ≠ [] →
      (∀ p ∈ pairs, '=' ∉ p.1.data ∧ ';' ∉ p.1.data ∧
        '=' ∉ p.2.data ∧ ';' ∉ p.2.data) →
      parse_blob_connection_str (joinConn pairs) = Except.ok pairs ∧
      parse_blob_connection_str (joinConn pairs ++ ";") = Except.ok pairs) ∧
    (∀ conn : String,
      (∃ seg ∈ pySplitChar ';' (pyRstripSemi conn), '=' ∉ seg.data) →
      parse_blob_connection_str conn =
        Except.error (PyErr.valueError
          "Connection string is either blank or malformed.")) :=
  ⟨parse_join, parse_error_of_noeq⟩

/-- Witness for C4 amended at a concrete two-pair descriptor and a concrete
equals-free input. -/
theorem parse_blob_connection_mapping_and_errors_witness :
    parse_blob_connection_str (joinConn [("AccountName", "a"),
      ("AccountKey", "k")]) =
      Except.ok [("AccountName", "a"), ("AccountKey", "k")] ∧
    parse_blob_connection_str (joinConn [("AccountName", "a"),
      ("AccountKey", "k")] ++ ";") =
      Except.ok [("AccountName", "a"), ("AccountKey", "k")] ∧
    parse_blob_connection_str "noequals" =
      Except.error (PyErr.valueError
        "Connection string is either blank or malformed.") :=
  ⟨(parse_blob_connection_mapping_and_errors.1 _ (by decide) (by decide)).1,
   (parse_blob_connection_mapping_and_errors.1 _ (by decide) (by decide)).2,
   parse_blob_connection_mapping_and_errors.2 "noequals"
     ⟨"noequals", by decide, by decide⟩⟩
